import Mathlib

/-!
Verification of the Synthesis Gateway of `puter-tts-api` (src/index.js).

The repository is a single Express route handler (`POST /tts`) that
validates a text payload, checks a process-wide client handle, delegates
to an external text-to-speech provider racing a 30-second timeout, and
maps the provider result or failure onto an HTTP JSON response.

The handler is embedded here as a pure, total function `handleTts` from
an environment (readiness of the client handle plus the behaviour of the
one outbound provider call) and a request to a `HandlerResult` holding
the HTTP status, the JSON body (as an ordered key/value list mirroring
the source's object literals), the number of provider calls performed,
and the argument object of that call when one was made.

JavaScript semantics relevant to the source are made explicit:
truthiness of the `text` field (`if (!text)`), the fact that `.length`
on a non-string is `undefined` and `undefined > 3000` is `false`,
truthiness-based locator extraction (`audio.src || audio.url || null`),
the destructuring defaults for `model` / `output_format` (applied only
when the field is absent), and the truthiness fallback
`voice_id || DEFAULT_VOICE_ID`. `res.json` without an explicit status
sends HTTP 200, and `JSON.stringify` drops keys whose value is
`undefined` (hence the success body omits `textLength` when `text` has
no length property).
-/

namespace PuterTts

/-- A JSON value, for the bodies the handler sends with `res.json`. -/
inductive JVal where
  | jnull
  | jbool (b : Bool)
  | jnum  (n : Int)
  | jstr  (s : String)
  | jarr  (xs : List JVal)
  | jobj  (fs : List (String × JVal))

/-- The `text` field of the request body as a JavaScript value: absent
(`undefined`), a string, or a non-string such as a number.  Only the
shapes the handler can distinguish are modelled. -/
inductive TextVal where
  | absent
  | str (s : String)
  | num (n : Int)
  deriving DecidableEq

/-- JavaScript truthiness of the `text` value, as tested by `if (!text)`:
`undefined` is falsy, a string is truthy iff non-empty, a number is
truthy iff non-zero. -/
def TextVal.truthy : TextVal → Bool
  | .absent => false
  | .str s  => s ≠ ""
  | .num _n => _n ≠ 0

/-- The `.length` property of the `text` value: defined for strings,
`undefined` (`none`) for numbers and for `undefined` itself. -/
def TextVal.lengthProp : TextVal → Option Nat
  | .str s => some s.length
  | _      => none

/-- The JavaScript comparison `text.length > 3000`: comparing
`undefined` with a number yields `false`. -/
def lengthExceedsLimit (t : TextVal) : Bool :=
  match t.lengthProp with
  | some n => n > 3000
  | none   => false

/-- The parsed body of a `POST /tts` request.  `none` models an absent
(`undefined`) optional field, against which the destructuring defaults
for `model` / `output_format` fire. -/
structure TtsRequest where
  text : TextVal
  model : Option String
  voice_id : Option String
  output_format : Option String

/-- The value the provider promise resolves with: `null`/`undefined`, or
an object whose string-valued fields are listed with their keys. -/
inductive AudioVal where
  | nullish
  | obj (fields : List (String × String))

/-- The behaviour of the single outbound `puter.ai.txt2speech` call:
either its promise resolves with a value, or it rejects with an error
message, in each case after `settleMs` milliseconds of wall-clock time. -/
inductive ProviderBehavior where
  | resolves (settleMs : Nat) (audio : AudioVal)
  | rejects  (settleMs : Nat) (msg : String)

/-- The process environment of one request: whether the `puter` handle
was successfully initialised at startup, and how the provider behaves if
called. -/
structure Env where
  puterReady : Bool
  provider : ProviderBehavior

/-- The argument object passed to `puter.ai.txt2speech` (the forwarded
text together with the resolved voice, model and output format). -/
structure CallArgs where
  text : TextVal
  voice : String
  model : String
  output_format : String
  deriving DecidableEq

/-- Outcome of one invocation of the handler: the single HTTP response
it sends (status and JSON body), the number of provider calls performed,
and the argument of that call when one happened. -/
structure HandlerResult where
  status : Nat
  body : List (String × JVal)
  providerCalls : Nat
  callArgs : Option CallArgs

/-- `DEFAULT_VOICE_ID` from src/index.js. -/
def DEFAULT_VOICE_ID : String := "gmnazjXOFoOcWA59sd5m"

/-- JavaScript `v || d` on an optional string: the supplied value when
it is truthy (present and non-empty), the default otherwise.  Used for
`const targetVoice = voice_id || DEFAULT_VOICE_ID`. -/
def jsOrString (v : Option String) (d : String) : String :=
  match v with
  | some s => if s = "" then d else s
  | none   => d

/-- One step of `a || b` on object fields: an absent or empty-string
field is falsy and yields `none`, a non-empty string yields itself. -/
def truthyStr : Option String → Option String
  | some s => if s = "" then none else some s
  | none   => none

/-- `const audioUrl = audio.src || audio.url || null` from src/index.js:
take `src` when truthy, otherwise `url` when truthy, otherwise `null`. -/
def extractAudioUrl (fields : List (String × String)) : Option String :=
  match truthyStr (fields.lookup "src") with
  | some s => some s
  | none   => truthyStr (fields.lookup "url")

/-- Body of the 500 response built in the `catch (ttsError)` block:
both a provider rejection and the 30-second timeout rejection land here,
with the error's message as `details`. -/
def ttsFailBody (details : String) : List (String × JVal) :=
  [("success", .jbool false),
   ("error", .jstr "Failed to generate audio"),
   ("details", .jstr details),
   ("hint", .jstr "Check PUTER_AUTH_TOKEN validity or try again")]

/-- Body of the 400 response for missing/empty `text`. -/
def textRequiredBody : List (String × JVal) :=
  [("success", .jbool false),
   ("error", .jstr "Text is required"),
   ("example", .jobj [("text", .jstr "Hello world!"),
                      ("voice_id", .jstr "gmnazjXOFoOcWA59sd5m")])]

/-- The `POST /tts` handler of src/index.js as a pure function.  The
timeout race is modelled on ideal wall-clock time: the provider promise
wins `Promise.race` iff it settles within the 30000 ms timeout;
otherwise the timeout rejection is what the `await` observes, and the
provider's own eventual settlement is discarded. -/
def handleTts (env : Env) (req : TtsRequest) : HandlerResult :=
  if req.text.truthy = false then
    { status := 400, body := textRequiredBody,
      providerCalls := 0, callArgs := none }
  else if lengthExceedsLimit req.text then
    { status := 400,
      body := [("success", .jbool false),
               ("error", .jstr "Text exceeds 3000 character limit"),
               ("textLength", .jnum (req.text.lengthProp.getD 0 : Nat)),
               ("maxLength", .jnum 3000)],
      providerCalls := 0, callArgs := none }
  else if env.puterReady = false then
    { status := 503,
      body := [("success", .jbool false),
               ("error", .jstr "Puter service not initialized"),
               ("hint", .jstr "Check PUTER_AUTH_TOKEN in environment")],
      providerCalls := 0, callArgs := none }
  else
    let targetVoice := jsOrString req.voice_id DEFAULT_VOICE_ID
    let modelUsed := req.model.getD "eleven_multilingual_v2"
    let formatUsed := req.output_format.getD "mp3_44100_128"
    let args : CallArgs :=
      { text := req.text, voice := targetVoice,
        model := modelUsed, output_format := formatUsed }
    match env.provider with
    | .rejects settleMs msg =>
      if settleMs > 30000 then
        { status := 500, body := ttsFailBody "TTS generation timeout (>30s)",
          providerCalls := 1, callArgs := some args }
      else
        { status := 500, body := ttsFailBody msg,
          providerCalls := 1, callArgs := some args }
    | .resolves settleMs audio =>
      if settleMs > 30000 then
        { status := 500, body := ttsFailBody "TTS generation timeout (>30s)",
          providerCalls := 1, callArgs := some args }
      else
        match audio with
        | .nullish =>
          { status := 500,
            body := [("success", .jbool false),
                     ("error", .jstr "Audio generation returned null"),
                     ("hint", .jstr "Voice ID or Puter token might be invalid")],
            providerCalls := 1, callArgs := some args }
        | .obj fields =>
          match extractAudioUrl fields with
          | none =>
            { status := 500,
              body := [("success", .jbool false),
                       ("error", .jstr "Audio URL not found in response"),
                       ("audioObject",
                        .jarr (fields.map (fun kv => JVal.jstr kv.1)))],
              providerCalls := 1, callArgs := some args }
          | some u =>
            { status := 200,
              body := [("success", .jbool true),
                       ("audioUrl", .jstr u),
                       ("usedVoice", .jstr targetVoice)]
                ++ (match req.text.lengthProp with
                    | some n => [("textLength", .jnum (n : Nat))]
                    | none   => [])
                ++ [("model", .jstr modelUsed),
                    ("outputFormat", .jstr formatUsed),
                    ("generationTime", .jstr (toString settleMs ++ "ms")),
                    ("message",
                     .jstr "Audio generated successfully from ElevenLabs via Puter.js")],
              providerCalls := 1, callArgs := some args }

/-- Field access on a sent JSON body. -/
def getField (r : HandlerResult) (k : String) : Option JVal :=
  r.body.lookup k

/-! ## Helper lemmas -/

/-- A key found by `List.lookup` is among the keys of the list. -/
theorem mem_keys_of_lookup {β : Type} {k : String} {v : β} :
    ∀ {l : List (String × β)}, l.lookup k = some v → k ∈ l.map Prod.fst
  | [], h => by simp [List.lookup] at h
  | (a, b) :: es, h => by
    by_cases hk : k = a
    · simp [hk]
    · have hb : (k == a) = false := beq_false_of_ne hk
      rw [List.lookup, hb] at h
      exact List.mem_cons_of_mem _ (mem_keys_of_lookup h)

/-- `src` truthy: taken, whatever `url` holds. -/
theorem extractAudioUrl_src {fields : List (String × String)} {s : String}
    (hs : fields.lookup "src" = some s) (hne : s ≠ "") :
    extractAudioUrl fields = some s := by
  simp [extractAudioUrl, truthyStr, hs, hne]

/-- `src` absent, `url` truthy: taken from `url`. -/
theorem extractAudioUrl_url {fields : List (String × String)} {u : String}
    (hs : fields.lookup "src" = none) (hu : fields.lookup "url" = some u)
    (hne : u ≠ "") :
    extractAudioUrl fields = some u := by
  simp [extractAudioUrl, truthyStr, hs, hu, hne]

/-- `src` present but empty (falsy), `url` truthy: falls through to `url`. -/
theorem extractAudioUrl_src_empty {fields : List (String × String)} {u : String}
    (hs : fields.lookup "src" = some "") (hu : fields.lookup "url" = some u)
    (hne : u ≠ "") :
    extractAudioUrl fields = some u := by
  simp [extractAudioUrl, truthyStr, hs, hu, hne]

/-- Neither field truthy (absent or empty): no locator. -/
theorem extractAudioUrl_none {fields : List (String × String)}
    (hs : fields.lookup "src" = none ∨ fields.lookup "src" = some "")
    (hu : fields.lookup "url" = none ∨ fields.lookup "url" = some "") :
    extractAudioUrl fields = none := by
  rcases hs with hs | hs <;> rcases hu with hu | hu <;>
    simp [extractAudioUrl, truthyStr, hs, hu]

/-- Characterization of the success path: valid text, ready handle,
provider resolves in time with an object holding a truthy locator. -/
theorem handleTts_success_char
    (txt : String) (h1 : txt ≠ "") (h2 : txt.length ≤ 3000)
    (mo vo fo : Option String) (t : Nat) (ht : t ≤ 30000)
    (fields : List (String × String)) (u : String)
    (hu : extractAudioUrl fields = some u) :
    handleTts ⟨true, .resolves t (.obj fields)⟩ ⟨.str txt, mo, vo, fo⟩ =
      { status := 200,
        body := [("success", .jbool true),
                 ("audioUrl", .jstr u),
                 ("usedVoice", .jstr (jsOrString vo DEFAULT_VOICE_ID)),
                 ("textLength", .jnum (txt.length : Nat)),
                 ("model", .jstr (mo.getD "eleven_multilingual_v2")),
                 ("outputFormat", .jstr (fo.getD "mp3_44100_128")),
                 ("generationTime", .jstr (toString t ++ "ms")),
                 ("message",
                  .jstr "Audio generated successfully from ElevenLabs via Puter.js")],
        providerCalls := 1,
        callArgs := some { text := .str txt,
                           voice := jsOrString vo DEFAULT_VOICE_ID,
                           model := mo.getD "eleven_multilingual_v2",
                           output_format := fo.getD "mp3_44100_128" } } := by
  simp [handleTts, TextVal.truthy, lengthExceedsLimit, TextVal.lengthProp, h1,
        Nat.not_lt.mpr h2, Nat.not_lt.mpr ht, hu]

/-- Characterization of the malformed-response path: provider resolved
in time with an object exposing no truthy locator field. -/
theorem handleTts_malformed_char
    (txt : String) (h1 : txt ≠ "") (h2 : txt.length ≤ 3000)
    (mo vo fo : Option String) (t : Nat) (ht : t ≤ 30000)
    (fields : List (String × String))
    (hu : extractAudioUrl fields = none) :
    handleTts ⟨true, .resolves t (.obj fields)⟩ ⟨.str txt, mo, vo, fo⟩ =
      { status := 500,
        body := [("success", .jbool false),
                 ("error", .jstr "Audio URL not found in response"),
                 ("audioObject", .jarr (fields.map (fun kv => JVal.jstr kv.1)))],
        providerCalls := 1,
        callArgs := some { text := .str txt,
                           voice := jsOrString vo DEFAULT_VOICE_ID,
                           model := mo.getD "eleven_multilingual_v2",
                           output_format := fo.getD "mp3_44100_128" } } := by
  simp [handleTts, TextVal.truthy, lengthExceedsLimit, TextVal.lengthProp, h1,
        Nat.not_lt.mpr h2, Nat.not_lt.mpr ht, hu]

/-! ## Claim theorems -/

/-- C1: for every provider response object, the audio locator is resolved
with `src` taking precedence over `url`: when the object exposes a truthy
`src` the locator is taken from `src` (in particular when `url` is
absent); when only `url` is present it is taken from `url`; when neither
is present, the handler answers HTTP 500 with the malformed-response
error and a body surfacing exactly the field names present in the
response object. -/
theorem handler_locator_resolution
    (txt : String) (h1 : txt ≠ "") (h2 : txt.length ≤ 3000)
    (mo vo fo : Option String) (t : Nat) (ht : t ≤ 30000)
    (fields : List (String × String)) :
    (∀ s, fields.lookup "src" = some s → s ≠ "" →
       getField (handleTts ⟨true, .resolves t (.obj fields)⟩ ⟨.str txt, mo, vo, fo⟩)
           "audioUrl" = some (.jstr s)) ∧
    (fields.lookup "src" = none →
     ∀ u, fields.lookup "url" = some u → u ≠ "" →
       getField (handleTts ⟨true, .resolves t (.obj fields)⟩ ⟨.str txt, mo, vo, fo⟩)
           "audioUrl" = some (.jstr u)) ∧
    (fields.lookup "src" = none → fields.lookup "url" = none →
       (handleTts ⟨true, .resolves t (.obj fields)⟩ ⟨.str txt, mo, vo, fo⟩).status = 500 ∧
       getField (handleTts ⟨true, .resolves t (.obj fields)⟩ ⟨.str txt, mo, vo, fo⟩)
           "error" = some (.jstr "Audio URL not found in response") ∧
       getField (handleTts ⟨true, .resolves t (.obj fields)⟩ ⟨.str txt, mo, vo, fo⟩)
           "audioObject" = some (.jarr (fields.map (fun kv => JVal.jstr kv.1)))) := by
  refine ⟨?_, ?_, ?_⟩
  · intro s hs hne
    rw [handleTts_success_char txt h1 h2 mo vo fo t ht fields s
          (extractAudioUrl_src hs hne)]
    simp [getField, List.lookup]
  · intro hs u hu hne
    rw [handleTts_success_char txt h1 h2 mo vo fo t ht fields u
          (extractAudioUrl_url hs hu hne)]
    simp [getField, List.lookup]
  · intro hs hu
    rw [handleTts_malformed_char txt h1 h2 mo vo fo t ht fields
          (extractAudioUrl_none (Or.inl hs) (Or.inl hu))]
    simp [getField, List.lookup]

/-- C1 witness: concrete run with a `src`-only response object. -/
theorem handler_locator_resolution_witness :
    ([("src", "a")] : List (String × String)).lookup "src" = some "a" ∧
    getField (handleTts ⟨true, .resolves 0 (.obj [("src", "a")])⟩
        ⟨.str "Hi", none, none, none⟩) "audioUrl" = some (.jstr "a") :=
  ⟨rfl, (handler_locator_resolution "Hi" (by decide) (by decide) none none none 0
      (by decide) [("src", "a")]).1 "a" rfl (by decide)⟩

/-- C2: a request whose `text` is absent or the empty string is answered
HTTP 400 with the `Text is required` error, and no provider call is
performed. -/
theorem handler_rejects_empty_text
    (env : Env) (mo vo fo : Option String) (tv : TextVal)
    (h : tv = .absent ∨ tv = .str "") :
    (handleTts env ⟨tv, mo, vo, fo⟩).status = 400 ∧
    getField (handleTts env ⟨tv, mo, vo, fo⟩) "error" = some (.jstr "Text is required") ∧
    (handleTts env ⟨tv, mo, vo, fo⟩).providerCalls = 0 := by
  rcases h with h | h <;> subst h <;>
    simp [handleTts, TextVal.truthy, getField, textRequiredBody, List.lookup]

/-- C2 witness: concrete run with absent `text`. -/
theorem handler_rejects_empty_text_witness :
    (handleTts ⟨true, .resolves 0 .nullish⟩ ⟨.absent, none, none, none⟩).status = 400 ∧
    getField (handleTts ⟨true, .resolves 0 .nullish⟩ ⟨.absent, none, none, none⟩) "error"
      = some (.jstr "Text is required") ∧
    (handleTts ⟨true, .resolves 0 .nullish⟩ ⟨.absent, none, none, none⟩).providerCalls = 0 :=
  handler_rejects_empty_text ⟨true, .resolves 0 .nullish⟩ none none none .absent (Or.inl rfl)

/-- C3: a request whose `text` is longer than 3000 characters is answered
HTTP 400, the body reporting the actual length and the 3000 limit, with
no provider call. -/
theorem handler_rejects_overlong_text
    (env : Env) (txt : String) (h : txt.length > 3000) (mo vo fo : Option String) :
    (handleTts env ⟨.str txt, mo, vo, fo⟩).status = 400 ∧
    getField (handleTts env ⟨.str txt, mo, vo, fo⟩) "error"
      = some (.jstr "Text exceeds 3000 character limit") ∧
    getField (handleTts env ⟨.str txt, mo, vo, fo⟩) "textLength"
      = some (.jnum (txt.length : Nat)) ∧
    getField (handleTts env ⟨.str txt, mo, vo, fo⟩) "maxLength" = some (.jnum 3000) ∧
    (handleTts env ⟨.str txt, mo, vo, fo⟩).providerCalls = 0 := by
  have hne : txt ≠ "" := by
    intro e
    rw [e] at h
    simp at h
  simp [handleTts, TextVal.truthy, lengthExceedsLimit, TextVal.lengthProp, hne, h,
        getField, List.lookup]

/-- C3 witness: concrete run with a 3001-character text. -/
theorem handler_rejects_overlong_text_witness :
    (String.mk (List.replicate 3001 'a')).length > 3000 ∧
    (handleTts ⟨true, .resolves 0 .nullish⟩
        ⟨.str (String.mk (List.replicate 3001 'a')), none, none, none⟩).status = 400 ∧
    (handleTts ⟨true, .resolves 0 .nullish⟩
        ⟨.str (String.mk (List.replicate 3001 'a')), none, none, none⟩).providerCalls = 0 := by
  have h : (String.mk (List.replicate 3001 'a')).length > 3000 := by
    show (List.replicate 3001 'a').length > 3000
    rw [List.length_replicate]
    norm_num
  exact ⟨h,
    (handler_rejects_overlong_text ⟨true, .resolves 0 .nullish⟩ _ h none none none).1,
    (handler_rejects_overlong_text ⟨true, .resolves 0 .nullish⟩ _ h none none none).2.2.2.2⟩

/-- C4: with valid text but an uninitialised client handle, the handler
answers HTTP 503 with the not-initialized error and performs no provider
call, whatever the provider would have done. -/
theorem handler_unready_returns_503
    (txt : String) (h1 : txt ≠ "") (h2 : txt.length ≤ 3000)
    (mo vo fo : Option String) (p : ProviderBehavior) :
    (handleTts ⟨false, p⟩ ⟨.str txt, mo, vo, fo⟩).status = 503 ∧
    getField (handleTts ⟨false, p⟩ ⟨.str txt, mo, vo, fo⟩) "error"
      = some (.jstr "Puter service not initialized") ∧
    (handleTts ⟨false, p⟩ ⟨.str txt, mo, vo, fo⟩).providerCalls = 0 := by
  simp [handleTts, TextVal.truthy, lengthExceedsLimit, TextVal.lengthProp, h1,
        Nat.not_lt.mpr h2, getField, List.lookup]

/-- C4 witness: concrete run with the handle unready. -/
theorem handler_unready_returns_503_witness :
    (handleTts ⟨false, .resolves 0 .nullish⟩ ⟨.str "Hi", none, none, none⟩).status = 503 ∧
    (handleTts ⟨false, .resolves 0 .nullish⟩ ⟨.str "Hi", none, none, none⟩).providerCalls = 0 :=
  ⟨(handler_unready_returns_503 "Hi" (by decide) (by decide) none none none
      (.resolves 0 .nullish)).1,
   (handler_unready_returns_503 "Hi" (by decide) (by decide) none none none
      (.resolves 0 .nullish)).2.2⟩

/-- C5: when the provider call settles only after the 30000 ms timeout,
the handler answers HTTP 500 with the timeout message as `details`; and
the response is independent of the provider's eventual result: any value
it later resolves with, or any rejection message, yields the identical
already-determined response. -/
theorem handler_timeout
    (txt : String) (h1 : txt ≠ "") (h2 : txt.length ≤ 3000)
    (mo vo fo : Option String) (t : Nat) (ht : t > 30000) (a : AudioVal) :
    (handleTts ⟨true, .resolves t a⟩ ⟨.str txt, mo, vo, fo⟩).status = 500 ∧
    getField (handleTts ⟨true, .resolves t a⟩ ⟨.str txt, mo, vo, fo⟩) "details"
      = some (.jstr "TTS generation timeout (>30s)") ∧
    getField (handleTts ⟨true, .resolves t a⟩ ⟨.str txt, mo, vo, fo⟩) "error"
      = some (.jstr "Failed to generate audio") ∧
    (∀ a' : AudioVal,
       handleTts ⟨true, .resolves t a⟩ ⟨.str txt, mo, vo, fo⟩ =
       handleTts ⟨true, .resolves t a'⟩ ⟨.str txt, mo, vo, fo⟩) ∧
    (∀ msg : String,
       handleTts ⟨true, .rejects t msg⟩ ⟨.str txt, mo, vo, fo⟩ =
       handleTts ⟨true, .resolves t a⟩ ⟨.str txt, mo, vo, fo⟩) := by
  refine ⟨?_, ?_, ?_, ?_, ?_⟩ <;>
    simp [handleTts, TextVal.truthy, lengthExceedsLimit, TextVal.lengthProp, h1,
          Nat.not_lt.mpr h2, ht, getField, ttsFailBody, List.lookup]

/-- C5 witness: concrete run with the provider settling at 30001 ms. -/
theorem handler_timeout_witness :
    (30001 : Nat) > 30000 ∧
    (handleTts ⟨true, .resolves 30001 .nullish⟩ ⟨.str "Hi", none, none, none⟩).status = 500 ∧
    getField (handleTts ⟨true, .resolves 30001 .nullish⟩ ⟨.str "Hi", none, none, none⟩)
      "details" = some (.jstr "TTS generation timeout (>30s)") :=
  ⟨by decide,
   (handler_timeout "Hi" (by decide) (by decide) none none none 30001 (by decide) .nullish).1,
   (handler_timeout "Hi" (by decide) (by decide) none none none 30001 (by decide) .nullish).2.1⟩

/-- C6 counterexample: a supplied `voice_id` is not always used verbatim.
With `voice_id` present as the empty string, the success response's
`usedVoice` is the configured default (a non-empty string), not the
supplied empty string, because the source computes
`voice_id || DEFAULT_VOICE_ID` by truthiness. -/
theorem handler_empty_voice_counterexample :
    getField (handleTts ⟨true, .resolves 10 (.obj [("src", "data:a")])⟩
        ⟨.str "Hello", none, some "", none⟩) "usedVoice"
      = some (.jstr "gmnazjXOFoOcWA59sd5m") ∧
    ("gmnazjXOFoOcWA59sd5m" : String) ≠ "" :=
  ⟨rfl, by decide⟩

/-- C6 (amended): on every successful synthesis the response carries
`success:true`, `audioUrl` equal to the extracted locator, `textLength`
equal to the input text's length, `generationTime` equal to the elapsed
wall-clock time, `model`/`outputFormat` equal to the configured defaults
when omitted and the supplied values verbatim when present (even empty),
and `usedVoice` equal to the default when `voice_id` is omitted and to
the supplied value verbatim when it is present and non-empty — a
supplied empty-string `voice_id` falls back to the default voice. -/
theorem handler_success_packaging
    (txt : String) (h1 : txt ≠ "") (h2 : txt.length ≤ 3000)
    (mo vo fo : Option String) (t : Nat) (ht : t ≤ 30000)
    (fields : List (String × String)) (u : String)
    (hu : extractAudioUrl fields = some u) :
    (handleTts ⟨true, .resolves t (.obj fields)⟩ ⟨.str txt, mo, vo, fo⟩).status = 200 ∧
    getField (handleTts ⟨true, .resolves t (.obj fields)⟩ ⟨.str txt, mo, vo, fo⟩)
        "success" = some (.jbool true) ∧
    getField (handleTts ⟨true, .resolves t (.obj fields)⟩ ⟨.str txt, mo, vo, fo⟩)
        "audioUrl" = some (.jstr u) ∧
    getField (handleTts ⟨true, .resolves t (.obj fields)⟩ ⟨.str txt, mo, vo, fo⟩)
        "textLength" = some (.jnum (txt.length : Nat)) ∧
    getField (handleTts ⟨true, .resolves t (.obj fields)⟩ ⟨.str txt, mo, vo, fo⟩)
        "generationTime" = some (.jstr (toString t ++ "ms")) ∧
    getField (handleTts ⟨true, .resolves t (.obj fields)⟩ ⟨.str txt, mo, vo, fo⟩)
        "usedVoice" = some (.jstr (jsOrString vo DEFAULT_VOICE_ID)) ∧
    getField (handleTts ⟨true, .resolves t (.obj fields)⟩ ⟨.str txt, mo, vo, fo⟩)
        "model" = some (.jstr (mo.getD "eleven_multilingual_v2")) ∧
    getField (handleTts ⟨true, .resolves t (.obj fields)⟩ ⟨.str txt, mo, vo, fo⟩)
        "outputFormat" = some (.jstr (fo.getD "mp3_44100_128")) ∧
    (∀ v, vo = some v → v ≠ "" →
       getField (handleTts ⟨true, .resolves t (.obj fields)⟩ ⟨.str txt, mo, vo, fo⟩)
           "usedVoice" = some (.jstr v)) ∧
    (vo = none →
       getField (handleTts ⟨true, .resolves t (.obj fields)⟩ ⟨.str txt, mo, vo, fo⟩)
           "usedVoice" = some (.jstr DEFAULT_VOICE_ID)) ∧
    (∀ m, mo = some m →
       getField (handleTts ⟨true, .resolves t (.obj fields)⟩ ⟨.str txt, mo, vo, fo⟩)
           "model" = some (.jstr m)) ∧
    (∀ f, fo = some f →
       getField (handleTts ⟨true, .resolves t (.obj fields)⟩ ⟨.str txt, mo, vo, fo⟩)
           "outputFormat" = some (.jstr f)) := by
  rw [handleTts_success_char txt h1 h2 mo vo fo t ht fields u hu]
  refine ⟨rfl, ?_, ?_, ?_, ?_, ?_, ?_, ?_, ?_, ?_, ?_, ?_⟩ <;>
    simp [getField, List.lookup, jsOrString] <;> intros <;> simp_all [jsOrString]

/-- C6 witness: concrete successful run with all optional fields
supplied and non-empty. -/
theorem handler_success_packaging_witness :
    extractAudioUrl [("src", "data:audio/mp3;base64,AAAA")]
      = some "data:audio/mp3;base64,AAAA" ∧
    getField (handleTts ⟨true, .resolves 10 (.obj [("src", "data:audio/mp3;base64,AAAA")])⟩
        ⟨.str "Hello", some "m1", some "v1", some "f1"⟩) "usedVoice" = some (.jstr "v1") ∧
    getField (handleTts ⟨true, .resolves 10 (.obj [("src", "data:audio/mp3;base64,AAAA")])⟩
        ⟨.str "Hello", some "m1", some "v1", some "f1"⟩) "model" = some (.jstr "m1") ∧
    getField (handleTts ⟨true, .resolves 10 (.obj [("src", "data:audio/mp3;base64,AAAA")])⟩
        ⟨.str "Hello", some "m1", some "v1", some "f1"⟩) "outputFormat"
      = some (.jstr "f1") ∧
    getField (handleTts ⟨true, .resolves 10 (.obj [("src", "data:audio/mp3;base64,AAAA")])⟩
        ⟨.str "Hello", some "m1", some "v1", some "f1"⟩) "audioUrl"
      = some (.jstr "data:audio/mp3;base64,AAAA") ∧
    getField (handleTts ⟨true, .resolves 10 (.obj [("src", "data:audio/mp3;base64,AAAA")])⟩
        ⟨.str "Hello", some "m1", some "v1", some "f1"⟩) "textLength"
      = some (.jnum ("Hello".length : Nat)) := by
  have h := handler_success_packaging "Hello" (by decide) (by decide)
    (some "m1") (some "v1") (some "f1") 10 (by decide)
    [("src", "data:audio/mp3;base64,AAAA")] "data:audio/mp3;base64,AAAA" rfl
  exact ⟨rfl, h.2.2.2.2.2.2.2.2.1 "v1" rfl (by decide),
    h.2.2.2.2.2.2.2.2.2.2.1 "m1" rfl, h.2.2.2.2.2.2.2.2.2.2.2 "f1" rfl,
    h.2.2.1, h.2.2.2.1⟩

/-- C7: validation precedes the readiness check: a request with missing,
empty, or over-limit text is answered HTTP 400 even when the client
handle is unready, never HTTP 503. -/
theorem handler_validation_precedes_readiness
    (p : ProviderBehavior) (mo vo fo : Option String) (tv : TextVal)
    (h : tv = .absent ∨ tv = .str "" ∨ ∃ s, tv = .str s ∧ s.length > 3000) :
    (handleTts ⟨false, p⟩ ⟨tv, mo, vo, fo⟩).status = 400 ∧
    (handleTts ⟨false, p⟩ ⟨tv, mo, vo, fo⟩).status ≠ 503 := by
  rcases h with h | h | ⟨s, h, hs⟩ <;> subst h
  · simp [handleTts, TextVal.truthy]
  · simp [handleTts, TextVal.truthy]
  · have hne : s ≠ "" := by
      intro e
      rw [e] at hs
      simp at hs
    simp [handleTts, TextVal.truthy, lengthExceedsLimit, TextVal.lengthProp, hne, hs]

/-- C7 witness: concrete run with empty text and the handle unready. -/
theorem handler_validation_precedes_readiness_witness :
    (handleTts ⟨false, .resolves 0 .nullish⟩ ⟨.str "", none, none, none⟩).status = 400 ∧
    (handleTts ⟨false, .resolves 0 .nullish⟩ ⟨.str "", none, none, none⟩).status ≠ 503 :=
  handler_validation_precedes_readiness (.resolves 0 .nullish) none none none (.str "")
    (Or.inr (Or.inl rfl))

/-- C8: for every request and every provider outcome the handler is a
total function producing exactly one HTTP JSON response, and that
response is a success envelope (`success:true`, status 200) or a failure
envelope (`success:false`, non-200 status); no outcome escapes the
envelope. -/
theorem handler_always_answers_envelope (env : Env) (req : TtsRequest) :
    (getField (handleTts env req) "success" = some (.jbool true) ∧
       (handleTts env req).status = 200) ∨
    (getField (handleTts env req) "success" = some (.jbool false) ∧
       (handleTts env req).status ≠ 200) := by
  rcases env with ⟨ready, p⟩
  rcases req with ⟨tv, mo, vo, fo⟩
  unfold handleTts getField
  split
  · right; simp [textRequiredBody, List.lookup]
  split
  · right; simp [List.lookup]
  split
  · right; simp [List.lookup]
  cases p with
  | rejects t msg =>
    by_cases ht : t > 30000 <;> simp [ht, ttsFailBody, List.lookup]
  | resolves t a =>
    by_cases ht : t > 30000
    · simp [ht, ttsFailBody, List.lookup]
    · cases a with
      | nullish => simp [ht, List.lookup]
      | obj fields =>
        cases hu : extractAudioUrl fields <;> simp [ht, hu, List.lookup]

/-- C9: validation checks only truthiness and a `length` property, not
type: a truthy non-string `text` (a non-zero number, whose `length` is
`undefined`, and `undefined > 3000` is false) passes validation and is
forwarded verbatim as the provider call's text argument, never rejected
with HTTP 400. -/
theorem handler_forwards_nonstring_text
    (n : Int) (h : n ≠ 0) (p : ProviderBehavior) (mo vo fo : Option String) :
    (handleTts ⟨true, p⟩ ⟨.num n, mo, vo, fo⟩).status ≠ 400 ∧
    (handleTts ⟨true, p⟩ ⟨.num n, mo, vo, fo⟩).providerCalls = 1 ∧
    (handleTts ⟨true, p⟩ ⟨.num n, mo, vo, fo⟩).callArgs =
      some { text := .num n, voice := jsOrString vo DEFAULT_VOICE_ID,
             model := mo.getD "eleven_multilingual_v2",
             output_format := fo.getD "mp3_44100_128" } := by
  cases p with
  | rejects t msg =>
    by_cases ht : t > 30000 <;>
      simp [handleTts, TextVal.truthy, lengthExceedsLimit, TextVal.lengthProp, h, ht]
  | resolves t a =>
    by_cases ht : t > 30000
    · simp [handleTts, TextVal.truthy, lengthExceedsLimit, TextVal.lengthProp, h, ht]
    · cases a with
      | nullish =>
        simp [handleTts, TextVal.truthy, lengthExceedsLimit, TextVal.lengthProp, h, ht]
      | obj fields =>
        cases hu : extractAudioUrl fields <;>
          simp [handleTts, TextVal.truthy, lengthExceedsLimit, TextVal.lengthProp, h, ht, hu]

/-- C9 witness: concrete run with `text` the number 7. -/
theorem handler_forwards_nonstring_text_witness :
    ((7 : Int) ≠ 0) ∧
    (handleTts ⟨true, .rejects 10 "x"⟩ ⟨.num 7, none, none, none⟩).providerCalls = 1 ∧
    (handleTts ⟨true, .rejects 10 "x"⟩ ⟨.num 7, none, none, none⟩).callArgs =
      some { text := .num 7, voice := jsOrString none DEFAULT_VOICE_ID,
             model := (none : Option String).getD "eleven_multilingual_v2",
             output_format := (none : Option String).getD "mp3_44100_128" } :=
  ⟨by decide,
   (handler_forwards_nonstring_text 7 (by decide) (.rejects 10 "x") none none none).2.1,
   (handler_forwards_nonstring_text 7 (by decide) (.rejects 10 "x") none none none).2.2⟩

/-- C10: locator extraction tests truthiness, not key presence: when the
response object's `src` is the empty string the locator falls through to
`url`; and when `src` is empty and `url` is absent or empty the handler
answers HTTP 500 with the malformed-response error even though the `src`
field name appears among the response object's keys (and in the
surfaced `audioObject` list). -/
theorem handler_locator_truthiness
    (txt : String) (h1 : txt ≠ "") (h2 : txt.length ≤ 3000)
    (mo vo fo : Option String) (t : Nat) (ht : t ≤ 30000)
    (fields : List (String × String)) :
    (∀ u, fields.lookup "src" = some "" → fields.lookup "url" = some u → u ≠ "" →
       getField (handleTts ⟨true, .resolves t (.obj fields)⟩ ⟨.str txt, mo, vo, fo⟩)
           "audioUrl" = some (.jstr u)) ∧
    (fields.lookup "src" = some "" →
     (fields.lookup "url" = none ∨ fields.lookup "url" = some "") →
       (handleTts ⟨true, .resolves t (.obj fields)⟩ ⟨.str txt, mo, vo, fo⟩).status = 500 ∧
       getField (handleTts ⟨true, .resolves t (.obj fields)⟩ ⟨.str txt, mo, vo, fo⟩)
           "error" = some (.jstr "Audio URL not found in response") ∧
       "src" ∈ fields.map Prod.fst ∧
       getField (handleTts ⟨true, .resolves t (.obj fields)⟩ ⟨.str txt, mo, vo, fo⟩)
           "audioObject" = some (.jarr (fields.map (fun kv => JVal.jstr kv.1)))) := by
  constructor
  · intro u hs hu hne
    rw [handleTts_success_char txt h1 h2 mo vo fo t ht fields u
          (extractAudioUrl_src_empty hs hu hne)]
    simp [getField, List.lookup]
  · intro hs hu
    rw [handleTts_malformed_char txt h1 h2 mo vo fo t ht fields
          (extractAudioUrl_none (Or.inr hs) hu)]
    exact ⟨rfl, by simp [getField, List.lookup], mem_keys_of_lookup hs,
           by simp [getField, List.lookup]⟩

/-- C10 witness: concrete run with an empty `src` and a truthy `url`. -/
theorem handler_locator_truthiness_witness :
    ([("src", ""), ("url", "u1")] : List (String × String)).lookup "src" = some "" ∧
    getField (handleTts ⟨true, .resolves 0 (.obj [("src", ""), ("url", "u1")])⟩
        ⟨.str "Hi", none, none, none⟩) "audioUrl" = some (.jstr "u1") :=
  ⟨rfl, (handler_locator_truthiness "Hi" (by decide) (by decide) none none none 0 (by decide)
      [("src", ""), ("url", "u1")]).1 "u1" rfl rfl (by decide)⟩

end PuterTts
